import Mathlib

/-!
Verification of the sales-ai-agent relay + batching core.

The definitions below are a shallow embedding of the TypeScript source:
- `getWavHeader` embeds the WAV-header builder of the OpenAI client module
  (and its byte-identical bot-module twin).
- `BatcherState` / `applyB` embed the Audio Batcher (class `OpenAIClient`):
  its chunk buffer, the `isProcessing` in-flight flag, the repeating timer,
  the scratch files staged in the temp directory, and the transcription
  callback invocations. Asynchronous flushes are modelled as two steps:
  `timerFire` runs `processAudioBuffer` up to its `await axios.post`
  (everything before the await executes synchronously in JS), and
  `backendRespond` runs the rest once the backend answers.
- `RelayState` / `applyR` embed the Meeting-connection register/deregister
  logic of `TranscriptionProxy.setupMeetingBaasClient`.
- `classifyFirstMessage` embeds the first-message connection classifier.
- `handleMeetingMessage` embeds the per-message Meeting handler, and
  `utf8DecodeReplace` / `utf8Encode` model Node's
  `Buffer.prototype.toString("utf8")` (WHATWG replacement decoding)
  followed by the UTF-8 wire encoding of the sent text frame.
- `onTranscriptionHandler` embeds the proxy's `onTranscription` callback.
-/

set_option autoImplicit false

namespace SalesAI

/-- Little-endian encoding of a 16-bit field, as written by
`buffer.writeUInt16LE`. -/
def u16le (v : Nat) : List Nat := [v % 256, v / 256 % 256]

/-- Little-endian encoding of a 32-bit field, as written by
`buffer.writeUInt32LE`. -/
def u32le (v : Nat) : List Nat :=
  [v % 256, v / 256 % 256, v / 65536 % 256, v / 16777216 % 256]

/-- Bytes of an ASCII tag string, as written by `buffer.write(s, off)`. -/
def strBytes (s : String) : List Nat := s.data.map Char.toNat

/-- Embedding of `getWavHeader` (identical in the OpenAI client module and the
bot module): the 13 writes are at strictly increasing offsets 0,4,8,12,16,20,
22,24,28,32,34,36,40 and tile the 44-byte buffer exactly, so the header is the
concatenation of the written fields in source order. -/
def getWavHeader (dataLength sampleRate numChannels bitsPerSample : Nat) :
    List Nat :=
  strBytes "RIFF" ++ u32le (36 + dataLength) ++
  strBytes "WAVE" ++ strBytes "fmt " ++
  u32le 16 ++ u16le 1 ++ u16le numChannels ++ u32le sampleRate ++
  u32le (sampleRate * numChannels * (bitsPerSample / 8)) ++
  u16le (numChannels * (bitsPerSample / 8)) ++ u16le bitsPerSample ++
  strBytes "data" ++ u32le dataLength

/-- Modelled from the spec's words (container-format contract of §6), for the
refinement comparison with `getWavHeader`: 44-byte header, little-endian
fields, ChunkSize = 36 + dataLength, Subchunk1Size = 16, AudioFormat = 1,
byte rate = sampleRate * channels * 2, block align = channels * 2,
bits-per-sample fixed at 16, Subchunk2Size = dataLength. -/
def specWavHeader (dataLength sampleRate numChannels : Nat) : List Nat :=
  strBytes "RIFF" ++ u32le (36 + dataLength) ++
  strBytes "WAVE" ++ strBytes "fmt " ++
  u32le 16 ++ u16le 1 ++ u16le numChannels ++ u32le sampleRate ++
  u32le (sampleRate * numChannels * 2) ++
  u16le (numChannels * 2) ++ u16le 16 ++
  strBytes "data" ++ u32le dataLength

/-- C5: for every dataLength, sample rate and channel count, the header the
Batcher produces (bits-per-sample 16, as both call sites pass) is exactly the
44-byte little-endian header described in §6 of the spec, and at dataLength
32000, sample rate 16000, channels 1 it equals the golden 44-byte sequence. -/
theorem wav_header_correct :
    (∀ dataLength sampleRate numChannels : Nat,
      getWavHeader dataLength sampleRate numChannels 16 =
        specWavHeader dataLength sampleRate numChannels ∧
      (getWavHeader dataLength sampleRate numChannels 16).length = 44) ∧
    getWavHeader 32000 16000 1 16 =
      [82, 73, 70, 70, 36, 125, 0, 0, 87, 65, 86, 69, 102, 109, 116, 32,
       16, 0, 0, 0, 1, 0, 1, 0, 128, 62, 0, 0, 0, 125, 0, 0, 2, 0, 16, 0,
       100, 97, 116, 97, 0, 125, 0, 0] := by
  refine ⟨fun d r c => ⟨rfl, rfl⟩, by decide⟩

/-- One transcription-callback invocation `onTranscriptionCallback(text, isFinal)`. -/
structure TranscriptEvent where
  text : String
  isFinal : Bool
deriving DecidableEq

/-- A flush suspended at its `await axios.post`, remembering the scratch file
it staged (file names `audio_$\x7bDate.now()\x7d.wav` are modelled by ids). -/
structure FlushJob where
  file : Nat
deriving DecidableEq

/-- State of one `OpenAIClient` (the Audio Batcher). `timers` lists every
interval ever armed and not yet cleared (to expose orphaned intervals);
`processingInterval` is the stored handle field; `tempDirExists` tracks
whether the temp directory exists (created in the constructor, removed by
`endSession`'s `fs.rmdirSync` and never recreated by this instance);
`tempFiles` are the files currently present in the temp directory; `events`
are the callback invocations made so far, in order. -/
structure BatcherState where
  audioBuffer : List (List Nat)
  isProcessing : Bool
  timers : List Nat
  processingInterval : Option Nat
  nextTimerId : Nat
  nextFileId : Nat
  tempDirExists : Bool
  tempFiles : List Nat
  inflight : List FlushJob
  events : List TranscriptEvent
deriving DecidableEq

/-- Constructor state of `OpenAIClient`: empty buffer, no flag, no timer,
temp directory created empty. -/
def initB : BatcherState :=
  { audioBuffer := [], isProcessing := false, timers := [],
    processingInterval := none, nextTimerId := 0, nextFileId := 0,
    tempDirExists := true, tempFiles := [], inflight := [], events := [] }

/-- Outcome of the backend HTTP round trip of one flush. -/
inductive BackendResult
  | success (text : String)
  | failure
deriving DecidableEq

/-- Events driving the Batcher: `sendAudioChunk`, a timer firing (or
`endSession` forcing) `processAudioBuffer`, the backend response resuming a
suspended flush, `initSession`, and `endSession`. -/
inductive BEvent
  | append (chunk : List Nat)
  | timerFire
  | backendRespond (r : BackendResult)
  | initSession
  | endSession
deriving DecidableEq

/-- Synchronous prefix of `processAudioBuffer` (everything before
`await axios.post`): check-and-skip on `isProcessing` or an empty buffer;
otherwise set the flag and swap the buffer for an empty one, then write the
WAV data to a fresh scratch file and suspend the submission. When the temp
directory no longer exists (after `endSession`'s `fs.rmdirSync`), the
`fs.writeFileSync` throws ENOENT before the await: the catch block logs it
and the finally block clears the flag, so nothing is staged or submitted —
but the buffer was already swapped out, so that audio is lost. -/
def flushBeginCore (s : BatcherState) : BatcherState :=
  if s.isProcessing || s.audioBuffer.isEmpty then s
  else if s.tempDirExists then
    { s with
      isProcessing := true,
      audioBuffer := [],
      tempFiles := s.tempFiles ++ [s.nextFileId],
      nextFileId := s.nextFileId + 1,
      inflight := s.inflight ++ [⟨s.nextFileId⟩] }
  else
    { s with isProcessing := false, audioBuffer := [] }

/-- Resumption of `processAudioBuffer` after the backend responds. On
success: `fs.unlinkSync(tempFile)` (which throws into the catch block,
emitting nothing, if the file was already swept away), then the callback is
invoked with `(text, true)` only when `response.data.text` is truthy, i.e.
the text is non-empty. On failure: straight to the catch block, so the
scratch file is not unlinked. The finally block clears `isProcessing`. -/
def backendRespondStep (s : BatcherState) (r : BackendResult) : BatcherState :=
  match s.inflight with
  | [] => s
  | j :: rest =>
    match r with
    | .failure => { s with isProcessing := false, inflight := rest }
    | .success text =>
      if j.file ∈ s.tempFiles then
        { s with
          tempFiles := s.tempFiles.erase j.file,
          events :=
            if text ≠ "" then s.events ++ [⟨text, true⟩] else s.events,
          isProcessing := false,
          inflight := rest }
      else
        { s with isProcessing := false, inflight := rest }

/-- Embedding of `initSession`: unconditionally arms a fresh repeating
5-second interval and overwrites the stored handle (the function performs no
check of any Active state and always resolves to true). -/
def initSessionStep (s : BatcherState) : BatcherState :=
  { s with
    timers := s.timers ++ [s.nextTimerId],
    processingInterval := some s.nextTimerId,
    nextTimerId := s.nextTimerId + 1 }

/-- First statement of `endSession`: `clearInterval` of the stored handle,
when one is set. -/
def clearTimer (s : BatcherState) : BatcherState :=
  match s.processingInterval with
  | some id =>
      { s with timers := s.timers.erase id, processingInterval := none }
  | none => s

/-- Second statement of `endSession`: when the buffer is non-empty, call
`processAudioBuffer()` without awaiting it — only its synchronous prefix
runs before `endSession` continues. -/
def maybeFinalFlush (s : BatcherState) : BatcherState :=
  if s.audioBuffer.isEmpty then s else flushBeginCore s

/-- Last part of `endSession`: under a try/catch, `fs.readdirSync` the temp
directory, unlink every file in it, then `fs.rmdirSync` the directory. When
the directory exists this empties and removes it; when it is already gone
the `readdirSync` throws, the catch logs, and nothing changes. -/
def sweepTempDir (s : BatcherState) : BatcherState :=
  if s.tempDirExists then { s with tempFiles := [], tempDirExists := false }
  else s

/-- Embedding of `endSession`, in source statement order. -/
def endSessionStep (s : BatcherState) : BatcherState :=
  sweepTempDir (maybeFinalFlush (clearTimer s))

/-- One Batcher step. -/
def applyB (s : BatcherState) : BEvent → BatcherState
  | .append c => { s with audioBuffer := s.audioBuffer ++ [c] }
  | .timerFire => flushBeginCore s
  | .backendRespond r => backendRespondStep s r
  | .initSession => initSessionStep s
  | .endSession => endSessionStep s

/-- Run a sequence of Batcher events from the constructor state. -/
def runB (es : List BEvent) : BatcherState := es.foldl applyB initB

theorem clearTimer_fields (s : BatcherState) :
    (clearTimer s).isProcessing = s.isProcessing ∧
    (clearTimer s).inflight = s.inflight ∧
    (clearTimer s).audioBuffer = s.audioBuffer ∧
    (clearTimer s).events = s.events := by
  unfold clearTimer
  cases s.processingInterval <;> exact ⟨rfl, rfl, rfl, rfl⟩

theorem flushBeginCore_skip {s : BatcherState} (h : s.isProcessing = true) :
    flushBeginCore s = s := by
  unfold flushBeginCore
  simp [h]

theorem flushBeginCore_events (s : BatcherState) :
    (flushBeginCore s).events = s.events := by
  unfold flushBeginCore
  split
  · rfl
  · split <;> rfl

theorem sweepTempDir_fields (s : BatcherState) :
    (sweepTempDir s).isProcessing = s.isProcessing ∧
    (sweepTempDir s).inflight = s.inflight ∧
    (sweepTempDir s).audioBuffer = s.audioBuffer ∧
    (sweepTempDir s).events = s.events := by
  unfold sweepTempDir
  split <;> exact ⟨rfl, rfl, rfl, rfl⟩

theorem maybeFinalFlush_events (s : BatcherState) :
    (maybeFinalFlush s).events = s.events := by
  unfold maybeFinalFlush
  split
  · rfl
  · exact flushBeginCore_events s

theorem endSessionStep_events (s : BatcherState) :
    (endSessionStep s).events = s.events := by
  show (sweepTempDir (maybeFinalFlush (clearTimer s))).events = s.events
  rw [(sweepTempDir_fields _).2.2.2, maybeFinalFlush_events]
  exact (clearTimer_fields s).2.2.2

theorem endSessionStep_inflight_of_processing {s : BatcherState}
    (h : s.isProcessing = true) : (endSessionStep s).inflight = s.inflight := by
  show (sweepTempDir (maybeFinalFlush (clearTimer s))).inflight = s.inflight
  rw [(sweepTempDir_fields _).2.1]
  unfold maybeFinalFlush
  split
  · exact (clearTimer_fields s).2.1
  · rw [flushBeginCore_skip (by rw [(clearTimer_fields s).1]; exact h)]
    exact (clearTimer_fields s).2.1

/-- The flush-exclusion invariant: the `isProcessing` flag tracks exactly
whether a flush is suspended, and never more than one is. -/
def BInv (s : BatcherState) : Prop :=
  s.isProcessing = !s.inflight.isEmpty ∧ s.inflight.length ≤ 1

theorem flushBeginCore_inv {s : BatcherState} (h : BInv s) :
    BInv (flushBeginCore s) := by
  obtain ⟨h1, h2⟩ := h
  unfold flushBeginCore
  by_cases hp : s.isProcessing || s.audioBuffer.isEmpty
  · simp [hp]; exact ⟨h1, h2⟩
  · simp only [Bool.or_eq_true, not_or] at hp
    obtain ⟨hp1, hp2⟩ := hp
    have hproc : s.isProcessing = false := by
      cases hs : s.isProcessing
      · rfl
      · exact absurd hs hp1
    have hinf : s.inflight = [] := by
      rw [hproc] at h1
      cases hi : s.inflight
      · rfl
      · rw [hi] at h1; simp at h1
    cases hd : s.tempDirExists <;> simp [hproc, hp2, hinf, hd, BInv]

theorem applyB_inv {s : BatcherState} (e : BEvent) (h : BInv s) :
    BInv (applyB s e) := by
  obtain ⟨h1, h2⟩ := h
  cases e with
  | append c => exact ⟨h1, h2⟩
  | timerFire => exact flushBeginCore_inv ⟨h1, h2⟩
  | backendRespond r =>
    unfold applyB backendRespondStep
    cases hi : s.inflight with
    | nil => exact ⟨h1, h2⟩
    | cons j rest =>
      have hrest : rest = [] := by
        rw [hi] at h2; simpa using h2
      cases r with
      | failure => subst hrest; exact ⟨by simp [BInv], by simp⟩
      | success text =>
        subst hrest
        by_cases hf : j.file ∈ s.tempFiles <;> simp [hf, BInv]
  | initSession => exact ⟨h1, h2⟩
  | endSession =>
    show BInv (sweepTempDir (maybeFinalFlush (clearTimer s)))
    have hct : BInv (clearTimer s) := by
      obtain ⟨f1, f2, _, _⟩ := clearTimer_fields s
      exact ⟨by rw [f1, f2]; exact h1, by rw [f2]; exact h2⟩
    have hmf : BInv (maybeFinalFlush (clearTimer s)) := by
      unfold maybeFinalFlush
      split
      · exact hct
      · exact flushBeginCore_inv hct
    obtain ⟨g1, g2, _, _⟩ := sweepTempDir_fields (maybeFinalFlush (clearTimer s))
    exact ⟨by rw [g1, g2]; exact hmf.1, by rw [g2]; exact hmf.2⟩

theorem foldlB_inv (es : List BEvent) :
    ∀ s : BatcherState, BInv s → BInv (es.foldl applyB s) := by
  induction es with
  | nil => intro s h; exact h
  | cons e es ih => intro s h; exact ih _ (applyB_inv e h)

theorem runB_inv (es : List BEvent) : BInv (runB es) :=
  foldlB_inv es initB ⟨rfl, by decide⟩

/-- Scratch files only exist while the temp directory does: once
`endSession` removed the directory, no file can be staged in it. -/
def DirInv (s : BatcherState) : Prop :=
  s.tempDirExists = false → s.tempFiles = []

theorem flushBeginCore_dirinv {s : BatcherState} (h : DirInv s) :
    DirInv (flushBeginCore s) := by
  unfold DirInv at h ⊢
  unfold flushBeginCore
  split
  · exact h
  · split
    · next hd => simp [hd]
    · exact h

theorem maybeFinalFlush_dirinv {s : BatcherState} (h : DirInv s) :
    DirInv (maybeFinalFlush s) := by
  unfold maybeFinalFlush
  split
  · exact h
  · exact flushBeginCore_dirinv h

theorem clearTimer_dirinv {s : BatcherState} (h : DirInv s) :
    DirInv (clearTimer s) := by
  unfold DirInv at h ⊢
  unfold clearTimer
  cases s.processingInterval <;> exact h

theorem sweepTempDir_dirinv {s : BatcherState} (h : DirInv s) :
    DirInv (sweepTempDir s) := by
  unfold DirInv at h ⊢
  unfold sweepTempDir
  split
  · intro _; rfl
  · exact h

theorem backendRespondStep_dirinv {s : BatcherState} {r : BackendResult}
    (h : DirInv s) : DirInv (backendRespondStep s r) := by
  unfold DirInv at h ⊢
  unfold backendRespondStep
  split
  · exact h
  · split
    · exact h
    · split
      · intro hd
        rw [h hd]
        rfl
      · exact h

theorem applyB_dirinv {s : BatcherState} (e : BEvent) (h : DirInv s) :
    DirInv (applyB s e) := by
  cases e with
  | append c => exact h
  | timerFire => exact flushBeginCore_dirinv h
  | backendRespond r => exact backendRespondStep_dirinv h
  | initSession => exact h
  | endSession =>
    show DirInv (sweepTempDir (maybeFinalFlush (clearTimer s)))
    exact sweepTempDir_dirinv (maybeFinalFlush_dirinv (clearTimer_dirinv h))

theorem runB_dirinv (es : List BEvent) : DirInv (runB es) := by
  suffices hs : ∀ s : BatcherState, DirInv s → DirInv (es.foldl applyB s) from
    hs initB (by intro hd; simp [initB] at hd)
  induction es with
  | nil => intro s h; exact h
  | cons e es ih => intro s h; exact ih _ (applyB_dirinv e h)

theorem runB_snoc (es : List BEvent) (e : BEvent) :
    runB (es ++ [e]) = applyB (runB es) e := by
  simp [runB, List.foldl_append]

theorem inflight_ne_nil_isProcessing {es : List BEvent}
    (h : (runB es).inflight ≠ []) : (runB es).isProcessing = true := by
  obtain ⟨h1, _⟩ := runB_inv es
  rw [h1]
  cases hi : (runB es).inflight
  · exact absurd hi h
  · simp

/-- C1: at most one flush is ever in flight, for every interleaving of
appends, timer fires, backend responses and forced end calls; and while a
flush is in flight, a timer firing is skipped outright (state unchanged)
and a forced end starts no additional flush — a new flush is never queued,
so no two submissions to the backend overlap. -/
theorem flush_mutual_exclusion (es : List BEvent) :
    (runB es).inflight.length ≤ 1 ∧
    ((runB es).inflight ≠ [] →
      runB (es ++ [BEvent.timerFire]) = runB es ∧
      (runB (es ++ [BEvent.endSession])).inflight = (runB es).inflight) := by
  refine ⟨(runB_inv es).2, fun h => ?_⟩
  have hproc := inflight_ne_nil_isProcessing h
  constructor
  · rw [runB_snoc]
    show flushBeginCore (runB es) = runB es
    unfold flushBeginCore
    simp [hproc]
  · rw [runB_snoc]
    exact endSessionStep_inflight_of_processing hproc

/-- C1 witness: after one append and one timer fire a flush is in flight,
and both a further timer fire and a forced end leave it the only one. -/
theorem flush_mutual_exclusion_witness :
    (runB [BEvent.append [1], BEvent.timerFire]).inflight ≠ [] ∧
    runB ([BEvent.append [1], BEvent.timerFire] ++ [BEvent.timerFire]) =
      runB [BEvent.append [1], BEvent.timerFire] ∧
    (runB ([BEvent.append [1], BEvent.timerFire] ++ [BEvent.endSession])).inflight =
      (runB [BEvent.append [1], BEvent.timerFire]).inflight :=
  ⟨by decide, (flush_mutual_exclusion [BEvent.append [1], BEvent.timerFire]).2 (by decide)⟩

/-- C3 counterexample: run `initSession`, append a chunk, let the timer fire
(flush now in flight), append a second chunk, then call `endSession`. When
`endSession` returns, the in-flight flush is still pending (it was not
awaited) and the second chunk is still sitting unflushed in the buffer (the
final flush attempt was skipped by the `isProcessing` check), refuting that
`end` performs and awaits a final flush of any pending segment before
returning. -/
theorem endSession_races_inflight_flush :
    (runB [BEvent.initSession, BEvent.append [1], BEvent.timerFire,
           BEvent.append [2], BEvent.endSession]).inflight ≠ [] ∧
    (runB [BEvent.initSession, BEvent.append [1], BEvent.timerFire,
           BEvent.append [2], BEvent.endSession]).audioBuffer ≠ [] := by
  decide

theorem endSessionStep_spec (s : BatcherState)
    (hdir : s.tempDirExists = false → s.tempFiles = []) :
    (endSessionStep s).processingInterval = none ∧
    (endSessionStep s).tempFiles = [] ∧
    (endSessionStep s).tempDirExists = false ∧
    (endSessionStep s).audioBuffer =
      (if s.isProcessing || s.audioBuffer.isEmpty then s.audioBuffer else []) ∧
    (endSessionStep s).inflight.length =
      (if s.isProcessing || s.audioBuffer.isEmpty || !s.tempDirExists
       then s.inflight.length else s.inflight.length + 1) := by
  unfold endSessionStep sweepTempDir maybeFinalFlush clearTimer flushBeginCore
  cases hd : s.tempDirExists with
  | false =>
    have htf : s.tempFiles = [] := hdir hd
    cases hp : s.isProcessing <;> cases hb : s.audioBuffer.isEmpty <;>
      cases hpi : s.processingInterval <;> simp [hd, hp, hb, hpi, htf]
  | true =>
    cases hp : s.isProcessing <;> cases hb : s.audioBuffer.isEmpty <;>
      cases hpi : s.processingInterval <;> simp [hd, hp, hb, hpi]

/-- C3 amended: `endSession` clears the stored interval handle, sweeps and
removes the temp directory, and returns without awaiting anything. When no
flush is in flight and the buffer is non-empty it synchronously starts one
final flush, but only if the temp directory still exists; if a previous
`endSession` already removed the directory, the flush attempt dies at
`fs.writeFileSync` before any submission is staged — in both cases the
buffer is swapped out, so in the latter case that audio is silently lost.
When a flush is in flight, or the buffer is empty, no final flush is
started and the buffer is left as it was. -/
theorem endSession_behavior (es : List BEvent) :
    (runB (es ++ [BEvent.endSession])).processingInterval = none ∧
    (runB (es ++ [BEvent.endSession])).tempFiles = [] ∧
    (runB (es ++ [BEvent.endSession])).tempDirExists = false ∧
    (runB (es ++ [BEvent.endSession])).audioBuffer =
      (if (runB es).isProcessing || (runB es).audioBuffer.isEmpty
       then (runB es).audioBuffer else []) ∧
    (runB (es ++ [BEvent.endSession])).inflight.length =
      (if (runB es).isProcessing || (runB es).audioBuffer.isEmpty
          || !(runB es).tempDirExists
       then (runB es).inflight.length else (runB es).inflight.length + 1) := by
  rw [runB_snoc]
  exact endSessionStep_spec (runB es) (runB_dirinv es)

/-- C4 counterexample: append audio, let the timer fire, and let the backend
submission fail. The flush is over (`isProcessing` is reset and nothing is
in flight), yet the staged scratch file is still present in the temp
directory: the deletion only happens on the success path, refuting that the
scratch file is deleted after the submission attempt on success and failure
alike. -/
theorem scratch_file_survives_failed_flush :
    (runB [BEvent.initSession, BEvent.append [1, 2], BEvent.timerFire,
           BEvent.backendRespond .failure]).isProcessing = false ∧
    (runB [BEvent.initSession, BEvent.append [1, 2], BEvent.timerFire,
           BEvent.backendRespond .failure]).inflight = [] ∧
    (runB [BEvent.initSession, BEvent.append [1, 2], BEvent.timerFire,
           BEvent.backendRespond .failure]).tempFiles = [0] := by
  decide

/-- C4 amended: when the in-flight flush's submission succeeds, the scratch
file is unlinked immediately; when it fails, the catch path skips the unlink
and the scratch file stays in the temp directory (until `endSession` sweeps
the directory). -/
theorem scratch_file_cleanup (s : BatcherState) (j : FlushJob)
    (rest : List FlushJob) (h : s.inflight = j :: rest) (t : String) :
    (backendRespondStep s (.success t)).tempFiles = s.tempFiles.erase j.file ∧
    (backendRespondStep s .failure).tempFiles = s.tempFiles := by
  unfold backendRespondStep
  rw [h]
  refine ⟨?_, rfl⟩
  by_cases hf : j.file ∈ s.tempFiles
  · simp [hf]
  · simp [hf, List.erase_of_not_mem hf]

/-- C4 amended witness: a concrete state with one in-flight flush whose
scratch file survives failure and is erased on success. -/
theorem scratch_file_cleanup_witness :
    (runB [BEvent.append [9], BEvent.timerFire]).inflight = [⟨0⟩] ∧
    (backendRespondStep (runB [BEvent.append [9], BEvent.timerFire])
        (.success "x")).tempFiles =
      (runB [BEvent.append [9], BEvent.timerFire]).tempFiles.erase 0 ∧
    (backendRespondStep (runB [BEvent.append [9], BEvent.timerFire])
        .failure).tempFiles =
      (runB [BEvent.append [9], BEvent.timerFire]).tempFiles :=
  ⟨by decide,
   scratch_file_cleanup (runB [BEvent.append [9], BEvent.timerFire]) ⟨0⟩ []
     (by decide) "x"⟩

/-- C6 counterexample: append silent audio, let the timer fire, and let the
backend respond with empty text. The flush completes without error, but the
events list stays empty: `response.data.text` is an empty string, which is
falsy, so the guard suppresses the callback and no Transcript Event with
empty text is ever emitted. -/
theorem empty_text_event_suppressed :
    (runB [BEvent.initSession, BEvent.append [0, 0], BEvent.timerFire,
           BEvent.backendRespond (.success "")]).events = [] ∧
    (runB [BEvent.initSession, BEvent.append [0, 0], BEvent.timerFire,
           BEvent.backendRespond (.success "")]).isProcessing = false ∧
    (runB [BEvent.initSession, BEvent.append [0, 0], BEvent.timerFire,
           BEvent.backendRespond (.success "")]).inflight = [] := by
  decide

/-- C6 amended: when the backend responds to the in-flight flush with empty
text, the Batcher emits no Transcript Event at all (the empty string fails
the truthiness guard on the callback), so nothing is forwarded to the Bot
for that window; the flush still completes normally with no exception, the
scratch file unlinked and the in-flight flag cleared. -/
theorem empty_text_no_event (s : BatcherState) (j : FlushJob)
    (rest : List FlushJob) (h : s.inflight = j :: rest) :
    (backendRespondStep s (.success "")).events = s.events ∧
    (backendRespondStep s (.success "")).isProcessing = false ∧
    (backendRespondStep s (.success "")).inflight = rest := by
  unfold backendRespondStep
  rw [h]
  by_cases hf : j.file ∈ s.tempFiles <;> simp [hf]

/-- C6 amended witness: a concrete in-flight flush answered with empty text
emits nothing and completes. -/
theorem empty_text_no_event_witness :
    (runB [BEvent.append [0], BEvent.timerFire]).inflight = [⟨0⟩] ∧
    (backendRespondStep (runB [BEvent.append [0], BEvent.timerFire])
        (.success "")).events =
      (runB [BEvent.append [0], BEvent.timerFire]).events ∧
    (backendRespondStep (runB [BEvent.append [0], BEvent.timerFire])
        (.success "")).isProcessing = false ∧
    (backendRespondStep (runB [BEvent.append [0], BEvent.timerFire])
        (.success "")).inflight = [] :=
  ⟨by decide,
   empty_text_no_event (runB [BEvent.append [0], BEvent.timerFire]) ⟨0⟩ []
     (by decide)⟩

/-- C7 counterexample: calling `initSession` twice arms two repeating
intervals — the second call is not a no-op (it changes the state and arms a
second timer), refuting idempotence of the Batcher's start operation. -/
theorem initSession_not_idempotent :
    runB [BEvent.initSession, BEvent.initSession] ≠
      runB [BEvent.initSession] ∧
    (runB [BEvent.initSession, BEvent.initSession]).timers.length = 2 ∧
    (runB [BEvent.initSession]).timers.length = 1 := by
  decide

/-- C7 amended: `initSession` performs no Active check at all: every call,
in every state, arms exactly one fresh repeating 5-second interval,
overwrites the stored handle with the new interval (orphaning any previously
armed one), and never touches the audio buffer (no new empty segment is
created — the buffer exists empty from construction); idempotence of session
start is provided only by the Relay Core's `isGladiaSessionActive` guard
around the call, not by the Batcher. -/
theorem initSession_always_arms_timer (es : List BEvent) :
    (runB (es ++ [BEvent.initSession])).timers.length =
      (runB es).timers.length + 1 ∧
    (runB (es ++ [BEvent.initSession])).audioBuffer =
      (runB es).audioBuffer ∧
    (runB (es ++ [BEvent.initSession])).processingInterval =
      some (runB es).nextTimerId ∧
    (runB (es ++ [BEvent.initSession])).inflight = (runB es).inflight := by
  rw [runB_snoc]
  simp [applyB, initSessionStep]

/-- State of the Relay Core's session bookkeeping: the Meeting-connection
set (`meetingBaasClients`, connections modelled by ids) and the
`isGladiaSessionActive` flag of `TranscriptionProxy`. -/
structure RelayState where
  meeting : List Nat
  isGladiaSessionActive : Bool
deriving DecidableEq

/-- Meeting-connection lifecycle events seen by the Relay Core. -/
inductive REvent
  | register (id : Nat)
  | deregister (id : Nat)
deriving DecidableEq

/-- Embedding of `setupMeetingBaasClient` registration and its close
handler. Registration adds the connection to the set and, when the session
flag is down, starts the Batcher session; the start's `.then` settles in a
microtask (the Batcher's `initSession` contains no await), before any later
connection event can run, and always resolves true, so the settling is
modelled atomically with the register. The close handler removes the
connection and, when the set became empty while the flag is up, ends the
session and lowers the flag. -/
def applyR (s : RelayState) : REvent → RelayState
  | .register id =>
    let s1 :=
      { s with
        meeting := if id ∈ s.meeting then s.meeting else id :: s.meeting }
    if s1.isGladiaSessionActive then s1
    else { s1 with isGladiaSessionActive := true }
  | .deregister id =>
    let s1 := { s with meeting := s.meeting.erase id }
    if s1.meeting.isEmpty && s1.isGladiaSessionActive then
      { s1 with isGladiaSessionActive := false }
    else s1

/-- Run a sequence of Meeting-connection events from the proxy's
constructor state (no connections, session inactive). -/
def runR (es : List REvent) : RelayState := es.foldl applyR ⟨[], false⟩

theorem erase_nil_of_nil {l : List Nat} (a : Nat) (h : l = []) :
    l.erase a = [] := by subst h; rfl

theorem applyR_inv (s : RelayState) (e : REvent)
    (h : s.isGladiaSessionActive = !s.meeting.isEmpty) :
    (applyR s e).isGladiaSessionActive = !(applyR s e).meeting.isEmpty := by
  cases e with
  | register id =>
    simp only [applyR]
    by_cases hm : id ∈ s.meeting
    · have hne : s.meeting.isEmpty = false := by
        cases hl : s.meeting
        · rw [hl] at hm; simp at hm
        · rfl
      have ha : s.isGladiaSessionActive = true := by rw [h, hne]; rfl
      simp [hm, ha, hne]
    · by_cases ha : s.isGladiaSessionActive <;> simp [hm, ha]
  | deregister id =>
    simp only [applyR]
    by_cases hc : (s.meeting.erase id).isEmpty && s.isGladiaSessionActive
    · have he := (Bool.and_eq_true _ _ |>.mp hc).1
      have hact := (Bool.and_eq_true _ _ |>.mp hc).2
      simp [he, hact]
    · simp only [Bool.and_eq_true, not_and] at hc
      cases he : (s.meeting.erase id).isEmpty
      · have hmne : s.meeting.isEmpty = false := by
          cases hl : s.meeting
          · rw [erase_nil_of_nil id hl] at he; simp at he
          · rfl
        have ha : s.isGladiaSessionActive = true := by rw [h, hmne]; rfl
        simp [he, ha]
      · have ha : s.isGladiaSessionActive = false := by
          cases hb : s.isGladiaSessionActive
          · rfl
          · exact absurd hb (hc he)
        simp [he, ha]

/-- C2: for every sequence of Meeting-connection register and deregister
events (with the asynchronous session start settling modelled atomically,
as it does in the source, where the start promise settles in a microtask
before any further connection event), the Transcription Session flag is up
exactly when the Meeting-connection set is non-empty: the first register
while inactive raises it, and removing the last connection while active
lowers it. -/
theorem session_active_iff_meeting_nonempty (es : List REvent) :
    (runR es).isGladiaSessionActive = !(runR es).meeting.isEmpty := by
  suffices h : ∀ s : RelayState,
      s.isGladiaSessionActive = !s.meeting.isEmpty →
      (es.foldl applyR s).isGladiaSessionActive =
        !(es.foldl applyR s).meeting.isEmpty from
    h ⟨[], false⟩ rfl
  induction es with
  | nil => intro s h; exact h
  | cons e es ih => intro s h; exact ih _ (applyR_inv s e h)

/-- Roles a first message can select. -/
inductive Role
  | bot
  | meeting
deriving DecidableEq

/-- A JSON field value as far as the classifier's strict-equality checks
can observe it: a string, or anything that is not a string. -/
inductive JVal
  | str (s : String)
  | nonString
deriving DecidableEq

/-- The observable shape of a successfully parsed first message: its `type`
and `client` fields, absent (`none`) when the parsed value has no such
property (e.g. it is not an object). -/
structure FirstMsg where
  typeField : Option JVal
  clientField : Option JVal
deriving DecidableEq

/-- The body of the first-message handler's try block: `JSON.parse` throws
on unparsable input (`none`), otherwise the message registers the Bot
exactly when `msg.type === "register"` and `msg.client === "bot"`. -/
def classifyTry : Option FirstMsg → Except String Role
  | none => .error "SyntaxError"
  | some m =>
    if m.typeField = some (.str "register") ∧ m.clientField = some (.str "bot")
    then .ok .bot
    else .ok .meeting

/-- The whole first-message handler: the catch block turns a parse failure
into the Meeting role, so the handler is total. -/
def classifyFirstMessage (p : Option FirstMsg) : Role :=
  match classifyTry p with
  | .ok r => r
  | .error _ => .meeting

/-- C8: the Connection Classifier assigns the Bot role exactly when the
first message parses as JSON with a `type` field equal to the string
"register" and a `client` field equal to the string "bot"; every other
case, parse failure included, yields the Meeting role, and a parse failure
never surfaces to the caller (the catch degrades it to Meeting). -/
theorem classifier_correct (p : Option FirstMsg) :
    (classifyFirstMessage p = .bot ↔
      ∃ m, p = some m ∧ m.typeField = some (.str "register") ∧
        m.clientField = some (.str "bot")) ∧
    (classifyFirstMessage p = .bot ∨ classifyFirstMessage p = .meeting) ∧
    (∀ e : String, classifyTry p = .error e →
      classifyFirstMessage p = .meeting) := by
  refine ⟨?_, ?_, ?_⟩
  · cases p with
    | none => simp [classifyFirstMessage, classifyTry]
    | some m =>
      by_cases hm : m.typeField = some (.str "register") ∧
          m.clientField = some (.str "bot")
      · simp [classifyFirstMessage, classifyTry, hm]
      · simp [classifyFirstMessage, classifyTry, hm]
  · cases p with
    | none => right; rfl
    | some m =>
      by_cases hm : m.typeField = some (.str "register") ∧
          m.clientField = some (.str "bot")
      · left; simp [classifyFirstMessage, classifyTry, hm]
      · right; simp [classifyFirstMessage, classifyTry, hm]
  · intro e he
    cases p with
    | none => rfl
    | some m =>
      by_cases hm : m.typeField = some (.str "register") ∧
          m.clientField = some (.str "bot") <;>
        simp [classifyTry, hm] at he

/-- C8 witness: a parse failure is classified as Meeting via the error
branch of the try block. -/
theorem classifier_correct_witness :
    classifyTry (none : Option FirstMsg) = .error "SyntaxError" ∧
    classifyFirstMessage none = Role.meeting :=
  ⟨rfl, (classifier_correct none).2.2 "SyntaxError" rfl⟩

/-- Data of a `type:"transcription"` message built by the proxy's
`onTranscription` handler (timestamps omitted: both are `Date.now()`). -/
structure TranscriptionMsgData where
  text : String
  isFinal : Bool
deriving DecidableEq

/-- JS truthiness of the `activeBotId : string | null` field: truthy exactly
when present and non-empty. -/
def isTruthyId : Option String → Bool
  | none => false
  | some s => !(s = "")

/-- Embedding of the proxy's `onTranscription` callback: build the
transcription message; append to the database when the result is final and
a bot id is truthy; send the message to the Bot connection when one is
registered and open. Returns the database appends and the bot sends. -/
def onTranscriptionHandler (activeBotId : Option String) (botOpen : Bool)
    (text : String) (isFinal : Bool) :
    List (String × String) × List TranscriptionMsgData :=
  ((if isFinal && isTruthyId activeBotId
    then [(activeBotId.getD "", text)] else []),
   (if botOpen then [⟨text, isFinal⟩] else []))

/-- Every callback invocation recorded so far passed `isFinal = true`. -/
def EvFinal (s : BatcherState) : Prop :=
  ∀ e ∈ s.events, e.isFinal = true

theorem backendRespondStep_events_mem {s : BatcherState} {r : BackendResult}
    {ev : TranscriptEvent} (h : ev ∈ (backendRespondStep s r).events) :
    ev ∈ s.events ∨ ev.isFinal = true := by
  unfold backendRespondStep at h
  split at h
  · exact Or.inl h
  · split at h
    · exact Or.inl h
    · split at h
      · dsimp only at h
        split at h
        · rcases List.mem_append.mp h with hm | hm
          · exact Or.inl hm
          · right
            rw [List.mem_singleton.mp hm]
        · exact Or.inl h
      · exact Or.inl h

theorem applyB_evfinal {s : BatcherState} (e : BEvent) (h : EvFinal s) :
    EvFinal (applyB s e) := by
  cases e with
  | append c => exact fun ev hev => h ev hev
  | timerFire =>
    intro ev hev
    have hev' : ev ∈ (flushBeginCore s).events := hev
    rw [flushBeginCore_events] at hev'
    exact h ev hev'
  | backendRespond r =>
    intro ev hev
    rcases backendRespondStep_events_mem (s := s) (r := r) hev with hm | hm
    · exact h ev hm
    · exact hm
  | initSession => exact fun ev hev => h ev hev
  | endSession =>
    intro ev hev
    have hev' : ev ∈ (endSessionStep s).events := hev
    rw [endSessionStep_events] at hev'
    exact h ev hev'


theorem runB_evfinal (es : List BEvent) : EvFinal (runB es) := by
  suffices h : ∀ s : BatcherState, EvFinal s → EvFinal (es.foldl applyB s) from
    h initB (by intro e he; simp [initB] at he)
  induction es with
  | nil => intro s h; exact h
  | cons e es ih => intro s h; exact ih _ (applyB_evfinal e h)

/-- C10: the Batcher only ever invokes the transcription callback with
`isFinal = true`, so every event in any run is final; consequently every
transcription message the proxy handler sends to the Bot for such an event
carries `data.isFinal = true`, and whenever a truthy bot identifier is set
the event's text is also handed to the persistence collaborator. -/
theorem transcripts_always_final (es : List BEvent) (e : TranscriptEvent)
    (h : e ∈ (runB es).events) :
    e.isFinal = true ∧
    (∀ abid : Option String, ∀ bopen : Bool,
      ∀ m ∈ (onTranscriptionHandler abid bopen e.text e.isFinal).2,
        m.isFinal = true) ∧
    (∀ abid : Option String, ∀ bopen : Bool, isTruthyId abid = true →
      (onTranscriptionHandler abid bopen e.text e.isFinal).1 =
        [(abid.getD "", e.text)]) := by
  have hf : e.isFinal = true := runB_evfinal es e h
  refine ⟨hf, ?_, ?_⟩
  · intro abid bopen m hm
    unfold onTranscriptionHandler at hm
    cases bopen with
    | false => simp at hm
    | true =>
      simp at hm
      rw [hm, hf]
  · intro abid bopen ht
    unfold onTranscriptionHandler
    simp [hf, ht]

/-- C10 witness: a run producing one event, which is final, is sent to the
Bot as final, and is persisted under the set bot id. -/
theorem transcripts_always_final_witness :
    (⟨"hello", true⟩ : TranscriptEvent) ∈
      (runB [BEvent.append [1], BEvent.timerFire,
             BEvent.backendRespond (.success "hello")]).events ∧
    ((⟨"hello", true⟩ : TranscriptEvent).isFinal = true ∧
     (∀ abid : Option String, ∀ bopen : Bool,
       ∀ m ∈ (onTranscriptionHandler abid bopen "hello" true).2,
         m.isFinal = true) ∧
     (∀ abid : Option String, ∀ bopen : Bool, isTruthyId abid = true →
       (onTranscriptionHandler abid bopen "hello" true).1 =
         [(abid.getD "", "hello")])) :=
  ⟨by decide,
   transcripts_always_final
     [BEvent.append [1], BEvent.timerFire,
      BEvent.backendRespond (.success "hello")] ⟨"hello", true⟩ (by decide)⟩

/-- Whether a byte is a UTF-8 continuation byte (10xxxxxx). -/
def isContByte (b : Nat) : Bool := 128 ≤ b && b ≤ 191

/-- Lower bound for the first continuation byte of a 3- or 4-byte sequence,
per the WHATWG decoder (overlong/surrogate/out-of-range exclusions). -/
def contLow (b : Nat) : Nat :=
  if b = 224 then 160 else if b = 240 then 144 else 128

/-- Upper bound for the first continuation byte of a 3- or 4-byte sequence,
per the WHATWG decoder. -/
def contHigh (b : Nat) : Nat :=
  if b = 237 then 159 else if b = 244 then 143 else 191

/-- WHATWG UTF-8 decoding with replacement, as performed by Node's
`Buffer.prototype.toString("utf8")`: bytes in, code points out; every
maximal invalid subpart becomes U+FFFD (65533). -/
def utf8DecodeReplace : List Nat → List Nat
  | [] => []
  | b :: rest =>
    if b ≤ 127 then b :: utf8DecodeReplace rest
    else if 194 ≤ b && b ≤ 223 then
      match rest with
      | [] => [65533]
      | c1 :: rest1 =>
        if isContByte c1 then
          ((b - 192) * 64 + (c1 - 128)) :: utf8DecodeReplace rest1
        else 65533 :: utf8DecodeReplace (c1 :: rest1)
    else if 224 ≤ b && b ≤ 239 then
      match rest with
      | [] => [65533]
      | c1 :: rest1 =>
        if contLow b ≤ c1 && c1 ≤ contHigh b then
          match rest1 with
          | [] => [65533]
          | c2 :: rest2 =>
            if isContByte c2 then
              ((b - 224) * 4096 + (c1 - 128) * 64 + (c2 - 128)) ::
                utf8DecodeReplace rest2
            else 65533 :: utf8DecodeReplace (c2 :: rest2)
        else 65533 :: utf8DecodeReplace (c1 :: rest1)
    else if 240 ≤ b && b ≤ 244 then
      match rest with
      | [] => [65533]
      | c1 :: rest1 =>
        if contLow b ≤ c1 && c1 ≤ contHigh b then
          match rest1 with
          | [] => [65533]
          | c2 :: rest2 =>
            if isContByte c2 then
              match rest2 with
              | [] => [65533]
              | c3 :: rest3 =>
                if isContByte c3 then
                  ((b - 240) * 262144 + (c1 - 128) * 4096 +
                    (c2 - 128) * 64 + (c3 - 128)) :: utf8DecodeReplace rest3
                else 65533 :: utf8DecodeReplace (c3 :: rest3)
            else 65533 :: utf8DecodeReplace (c2 :: rest2)
        else 65533 :: utf8DecodeReplace (c1 :: rest1)
    else 65533 :: utf8DecodeReplace rest

/-- UTF-8 encoding of one code point, as used for the text frame put on the
wire when the decoded string is sent. -/
def utf8EncodeChar (c : Nat) : List Nat :=
  if c < 128 then [c]
  else if c < 2048 then [192 + c / 64, 128 + c % 64]
  else if c < 65536 then
    [224 + c / 4096, 128 + c / 64 % 64, 128 + c % 64]
  else
    [240 + c / 262144, 128 + c / 4096 % 64, 128 + c / 64 % 64, 128 + c % 64]

/-- UTF-8 encoding of a sequence of code points. -/
def utf8Encode (cs : List Nat) : List Nat :=
  (cs.map utf8EncodeChar).flatten

/-- Bytes the Bot receives when the handler does
`botClient.send(message.toString())` on a binary payload: the payload is
replacement-decoded to a JS string and the resulting text frame carries its
UTF-8 encoding. -/
def sentBytes (bytes : List Nat) : List Nat :=
  utf8Encode (utf8DecodeReplace bytes)

/-- The classification a Meeting payload receives inside the handler's
Buffer branch, abstracting the two `JSON.parse`-based tests: a
speaker-activity array (first element with `name` and `isSpeaking`), some
other parsable JSON (logged only), or bytes that fail to parse as JSON
(raw audio). -/
inductive ParseShape
  | speakerEvent (name : String) (isSpeaking : Bool)
  | otherJson
  | notJson
deriving DecidableEq

/-- Proxy state read by the Meeting message handler. -/
structure HandlerState where
  lastSpeaker : Option String
  sessionActive : Bool
  botOpen : Bool
deriving DecidableEq

/-- Observable effects of one Meeting message: the speaker state after the
message, the chunks handed to the Batcher (`sendAudioChunk` receives the
raw buffer), and the payloads sent to the Bot connection. -/
structure HandlerOut where
  lastSpeaker : Option String
  audioToBatcher : List (List Nat)
  botSends : List (List Nat)
deriving DecidableEq

/-- Embedding of the Meeting-connection message handler of
`setupMeetingBaasClient`: branch on the parse shape (speaker update on a
rising edge; log-only for other JSON; `sendAudioChunk(message)` for
unparsable bytes when the session flag is up), then, regardless of branch,
forward `message.toString()` to the Bot when one is registered and open. -/
def handleMeetingMessage (st : HandlerState) (shape : ParseShape)
    (bytes : List Nat) : HandlerOut :=
  let base : HandlerOut :=
    match shape with
    | .speakerEvent name speaking =>
      if speaking && !(st.lastSpeaker = some name) then
        { lastSpeaker := some name, audioToBatcher := [], botSends := [] }
      else
        { lastSpeaker := st.lastSpeaker, audioToBatcher := [], botSends := [] }
    | .otherJson =>
      { lastSpeaker := st.lastSpeaker, audioToBatcher := [], botSends := [] }
    | .notJson =>
      { lastSpeaker := st.lastSpeaker,
        audioToBatcher := if st.sessionActive then [bytes] else [],
        botSends := [] }
  if st.botOpen then { base with botSends := base.botSends ++ [sentBytes bytes] }
  else base

/-- C9 counterexample: the single byte 0x80 is not valid UTF-8, fails
`JSON.parse`, and is therefore raw audio; with a Bot registered and open the
handler does forward one payload to the Bot, but it is the three replacement
bytes EF BF BD of `message.toString()`, not the original byte — the forward
is not byte-for-byte verbatim. -/
theorem bot_forward_mangles_binary :
    (handleMeetingMessage ⟨none, true, true⟩ .notJson [128]).botSends =
      [[239, 191, 189]] ∧
    (handleMeetingMessage ⟨none, true, true⟩ .notJson [128]).botSends ≠
      [[128]] ∧
    (handleMeetingMessage ⟨none, true, true⟩ .notJson [128]).audioToBatcher =
      [[128]] := by
  decide

/-- C9 amended: for every inbound Meeting message, in every classification
branch, exactly one payload is forwarded to the Bot whenever a Bot
connection is registered and open — but it is `message.toString()`, i.e.
the UTF-8 re-encoding of the replacement-decoded bytes, which preserves
valid-UTF-8 payloads and mangles other binary payloads; the Batcher, not
the Bot, is the party that receives the raw audio bytes. -/
theorem bot_forward_every_branch (st : HandlerState) (shape : ParseShape)
    (bytes : List Nat) (h : st.botOpen = true) :
    (handleMeetingMessage st shape bytes).botSends = [sentBytes bytes] ∧
    (handleMeetingMessage st shape bytes).audioToBatcher =
      (if shape = .notJson ∧ st.sessionActive then [bytes] else []) := by
  unfold handleMeetingMessage
  cases shape with
  | speakerEvent name speaking =>
    cases hs : speaking && !(st.lastSpeaker = some name) <;> simp [h, hs]
  | otherJson => simp [h]
  | notJson => cases ha : st.sessionActive <;> simp [h, ha]

/-- C9 amended witness: a concrete open-Bot state in the raw-audio branch
forwards exactly the toString bytes and queues the raw bytes. -/
theorem bot_forward_every_branch_witness :
    (⟨none, true, true⟩ : HandlerState).botOpen = true ∧
    ((handleMeetingMessage ⟨none, true, true⟩ .notJson [65, 66]).botSends =
      [sentBytes [65, 66]] ∧
     (handleMeetingMessage ⟨none, true, true⟩ .notJson [65, 66]).audioToBatcher =
      (if ParseShape.notJson = ParseShape.notJson ∧
          (⟨none, true, true⟩ : HandlerState).sessionActive
       then [[65, 66]] else [])) :=
  ⟨rfl, bot_forward_every_branch ⟨none, true, true⟩ .notJson [65, 66] rfl⟩

end SalesAI
